import Mathlib

/-!
# Verification of the navikinder service worker (push / cache / log pipeline)

Shallow embedding of the two service-worker sources of this repository:

* `src/public/sw.js` — cache name `medication-tracker-v3`; its definitions
  are suffixed `V3` below.
* `src/unnamed/part_000` — cache name `medication-tracker-v4`; its
  definitions are suffixed `V4` below.

Host-provided asynchronous primitives (cache storage, client enumeration,
`showNotification`, the network) are modelled as explicit oracle arguments:
each fallible host call is an `Except JSError`-valued (or `Option`-tagged)
input to the handler, and the handler itself is a total Lean function whose
`Except` result is the settlement of the promise handed to
`event.waitUntil`.  Timestamps (`new Date().toISOString()`) and `console.*`
output are host effects no claim depends on; they are not modelled except
where a `console.error` records a swallowed failure.
-/

set_option autoImplicit false

deriving instance DecidableEq for Except

/-- A JavaScript runtime value, as far as the worker inspects one.  JSON
payloads decode to these.  Numbers are modelled as integers: no code path
of the worker does arithmetic, it only tests truthiness.  An object's
field list is encoded as a cons spine inside the type itself
(`objCons key value rest`, ending in `objNil`), which keeps the inductive
non-nested. -/
inductive JSVal where
  | null
  | undefined
  | bool (b : Bool)
  | num (n : Int)
  | str (s : String)
  | objNil
  | objCons (key : String) (value : JSVal) (rest : JSVal)
  deriving Repr, BEq, DecidableEq

/-- Build an object value from a list of fields. -/
def JSVal.ofFields : List (String × JSVal) → JSVal
  | [] => .objNil
  | (k, v) :: rest => .objCons k v (JSVal.ofFields rest)

/-- A thrown JavaScript error, reduced to the two fields the worker reads
(`error.name` and `error.message`). -/
structure JSError where
  name : String
  message : String
  deriving Repr, BEq, DecidableEq

/-- JavaScript truthiness, restricted to the values of `JSVal`.  The empty
string and the number zero are falsy; every object is truthy. -/
def truthy : JSVal → Bool
  | .null => false
  | .undefined => false
  | .bool b => b
  | .num n => n != 0
  | .str s => s != ""
  | .objNil => true
  | .objCons _ _ _ => true

/-- The JavaScript `a || b` operator on values. -/
def jsOr (a b : JSVal) : JSVal :=
  if truthy a then a else b

/-- First binding of a key in an object's field spine. -/
def lookupField : JSVal → String → Option JSVal
  | .objCons k v rest, key => if k == key then some v else lookupField rest key
  | _, _ => none

/-- JavaScript property access `base.key`: throws a `TypeError` on `null`
and `undefined`, yields `undefined` for a missing key and on primitive
bases. -/
def getField : JSVal → String → Except JSError JSVal
  | .null, k =>
      .error ⟨"TypeError", "Cannot read properties of null (reading " ++ k ++ ")"⟩
  | .undefined, k =>
      .error ⟨"TypeError", "Cannot read properties of undefined (reading " ++ k ++ ")"⟩
  | base, k =>
      match base with
      | .objNil => .ok .undefined
      | .objCons _ _ _ => .ok ((lookupField base k).getD .undefined)
      | _ => .ok .undefined

example : truthy (.str "") = false := by decide
example : jsOr (.str "t") (.str "d") = .str "t" := by decide
example : getField (.ofFields [("body", .str "x")]) "title" = .ok .undefined := by decide

/-! ## Log events and push payload decoding -/

/-- A log event relayed through `sendLogToApp`: severity, message, optional
structured detail.  The accompanying timestamp is a host clock read no claim
depends on and is left out of the event itself. -/
structure LogEvent where
  logType : String
  message : String
  detail : Option JSVal
  deriving Repr, BEq, DecidableEq

/-- The data attached to a push event, through the two fallible decoders the
worker calls on it: `event.data.json()` and `event.data.text()`.  A decoder
that would throw is an `Except.error` carrying the thrown error.  A push
event with no payload has no `PushEventData` at all (`event.data` is null). -/
structure PushEventData where
  json : Except JSError JSVal
  text : Except JSError String
  deriving Repr, BEq, DecidableEq

/-- Payload decode tier of `src/public/sw.js` (lines 126-145): try
`event.data.json()`, fall back to `{ body: event.data.text() }`, fall back
to the empty object; no payload at all also yields the empty object.
Returns the decoded `data` value together with the log events emitted. -/
def decodeDataV3 : Option PushEventData → JSVal × List LogEvent
  | none => (.objNil, [⟨"warning", "⚠️ No data in push event", none⟩])
  | some pd =>
    match pd.json with
    | .ok d => (d, [⟨"success", "📦 Successfully parsed push data", some d⟩])
    | .error e =>
      let jsonLog : LogEvent := ⟨"error", "❌ Failed to parse JSON", some (.str e.message)⟩
      match pd.text with
      | .ok t =>
          (.objCons "body" (.str t) .objNil,
           [jsonLog, ⟨"warning", "⚠️ Using text fallback", none⟩])
      | .error te =>
          (.objNil,
           [jsonLog, ⟨"error", "❌ Failed to parse text", some (.str te.message)⟩])

/-- Payload decode tier of `src/unnamed/part_000` (lines 132-151); the code
is textually identical to the `sw.js` version but embedded separately so the
two can be compared. -/
def decodeDataV4 : Option PushEventData → JSVal × List LogEvent
  | none => (.objNil, [⟨"warning", "⚠️ No data in push event", none⟩])
  | some pd =>
    match pd.json with
    | .ok d => (d, [⟨"success", "📦 Successfully parsed push data", some d⟩])
    | .error e =>
      let jsonLog : LogEvent := ⟨"error", "❌ Failed to parse JSON", some (.str e.message)⟩
      match pd.text with
      | .ok t =>
          (.objCons "body" (.str t) .objNil,
           [jsonLog, ⟨"warning", "⚠️ Using text fallback", none⟩])
      | .error te =>
          (.objNil,
           [jsonLog, ⟨"error", "❌ Failed to parse text", some (.str te.message)⟩])

/-! ## Field derivation and notification rendering -/

/-- The options bundle handed to `showNotification`.  Fields a call site
leaves out of its object literal are `none`. -/
structure NotifOptions where
  body : JSVal
  icon : Option String
  badge : Option String
  data : Option JSVal
  requireInteraction : Option Bool
  deriving Repr, BEq, DecidableEq

/-- Default notification title used by both sources. -/
def defaultTitle : String := "Medication Reminder"

/-- Default notification body used by both sources. -/
def defaultBody : String := "It\x27s time for a medication dose"

/-- Field derivation of `src/public/sw.js` (lines 147-156):
`data.title || default`, then the options literal evaluating `data.body`,
the icon, the badge, `data.data || an empty object` and
`requireInteraction: true`.  Property access throws on a null or undefined
`data` value, so the result is `Except`-valued. -/
def deriveV3 (data : JSVal) : Except JSError (JSVal × NotifOptions) := do
  let t ← getField data "title"
  let b ← getField data "body"
  let d ← getField data "data"
  pure (jsOr t (.str defaultTitle),
    { body := jsOr b (.str defaultBody)
      icon := some "/navikinder-logo-256.png"
      badge := some "/navikinder-logo-256.png"
      data := some (jsOr d .objNil)
      requireInteraction := some true })

/-- Field derivation of `src/unnamed/part_000` (lines 153-162), textually
identical to the `sw.js` version but embedded separately. -/
def deriveV4 (data : JSVal) : Except JSError (JSVal × NotifOptions) := do
  let t ← getField data "title"
  let b ← getField data "body"
  let d ← getField data "data"
  pure (jsOr t (.str defaultTitle),
    { body := jsOr b (.str defaultBody)
      icon := some "/navikinder-logo-256.png"
      badge := some "/navikinder-logo-256.png"
      data := some (jsOr d .objNil)
      requireInteraction := some true })

/-- One `showNotification` call: the title argument and the options bundle. -/
structure ShowCall where
  title : JSVal
  options : NotifOptions
  deriving Repr, BEq, DecidableEq

/-- Outcomes the host assigns to the `showNotification` calls a push handler
can make: `none` is success, `some e` is rejection with error `e`.  The
`debug` slot is only consulted by the `part_000` handler's probe
notification. -/
structure RenderOracle where
  debug : Option JSError
  primary : Option JSError
  fallback : Option JSError
  deriving Repr, BEq, DecidableEq

/-- Result of one run of a push handler: every `showNotification` call made
in order, the subset that succeeded, the log events emitted, and the
rejection of the `event.waitUntil` promise if the handler body threw. -/
structure PushOutcome where
  attempts : List ShowCall
  shown : List ShowCall
  logs : List LogEvent
  escaped : Option JSError
  deriving Repr, BEq, DecidableEq

/-- The detail object `{ name, message, permission }` both sources attach to
a failed primary `showNotification` log. -/
def showErrorDetail (e : JSError) (permission : String) : JSVal :=
  .objCons "name" (.str e.name)
    (.objCons "message" (.str e.message)
      (.objCons "permission" (.str permission) .objNil))

/-- The fallback notification of `src/public/sw.js` (lines 167-170): fixed
title, fixed body, the same icon as the primary attempt, nothing else. -/
def fallbackCallV3 : ShowCall :=
  ⟨.str defaultTitle,
    { body := .str defaultBody
      icon := some "/navikinder-logo-256.png"
      badge := none
      data := none
      requireInteraction := none }⟩

/-- The handler-level logs of `src/public/sw.js`'s push listener emitted
before `event.waitUntil` (lines 124-125). -/
def pushPreLogsV3 (permission : String) : List LogEvent :=
  [⟨"info", "🔔 Push notification received", none⟩,
   ⟨"info", "🔒 Permission: " ++ permission, none⟩]

/-- The `event.waitUntil` body of `src/public/sw.js`'s push listener
(lines 128-178): decode, derive, log the attempt, try the primary
notification, on failure try the fixed fallback, swallowing both failures.
`permission` is the host's `Notification.permission` string. -/
def pushBodyV3 (permission : String) (eventData : Option PushEventData)
    (o : RenderOracle) : PushOutcome :=
  let decoded := decodeDataV3 eventData
  match deriveV3 decoded.1 with
  | .error e => ⟨[], [], decoded.2, some e⟩
  | .ok (title, options) =>
    let attemptLog : LogEvent :=
      ⟨"info", "📱 Attempting to show notification",
        some (.objCons "title" title (.objCons "body" options.body .objNil))⟩
    let primaryCall : ShowCall := ⟨title, options⟩
    match o.primary with
    | none =>
        ⟨[primaryCall], [primaryCall],
          decoded.2 ++ [attemptLog, ⟨"success", "✅ Notification shown successfully!", none⟩],
          none⟩
    | some e =>
      let failLog : LogEvent :=
        ⟨"error", "❌ showNotification failed", some (showErrorDetail e permission)⟩
      match o.fallback with
      | none =>
          ⟨[primaryCall, fallbackCallV3], [fallbackCallV3],
            decoded.2 ++ [attemptLog, failLog,
              ⟨"success", "✅ Fallback notification shown", none⟩],
            none⟩
      | some fe =>
          ⟨[primaryCall, fallbackCallV3], [],
            decoded.2 ++ [attemptLog, failLog,
              ⟨"error", "❌ Even fallback notification failed", some (.str fe.message)⟩],
            none⟩

/-- Full run of `src/public/sw.js`'s push listener: the pre-`waitUntil`
logs followed by the awaited body. -/
def pushHandlerV3 (permission : String) (eventData : Option PushEventData)
    (o : RenderOracle) : PushOutcome :=
  let r := pushBodyV3 permission eventData o
  ⟨r.attempts, r.shown, pushPreLogsV3 permission ++ r.logs, r.escaped⟩

/-- The probe notification `src/unnamed/part_000` shows first
(lines 166-170): fixed debug title and body, placeholder icon. -/
def debugCallV4 : ShowCall :=
  ⟨.str "🧪 DEBUG: Push Event Received",
    { body := .str "This confirms push events reach the service worker and showNotification works"
      icon := some "https://via.placeholder.com/192x192.png"
      badge := none
      data := none
      requireInteraction := none }⟩

/-- The fallback notification of `src/unnamed/part_000` (lines 193-196):
fixed title, fixed body, placeholder icon — not the icon of the primary
attempt. -/
def fallbackCallV4 : ShowCall :=
  ⟨.str defaultTitle,
    { body := .str defaultBody
      icon := some "https://via.placeholder.com/192x192.png"
      badge := none
      data := none
      requireInteraction := none }⟩

/-- The handler-level logs of `src/unnamed/part_000`'s push listener
emitted before `event.waitUntil` (lines 121-123); its `console.log` calls
are host console output, not relayed log events. -/
def pushPreLogsV4 (permission : String) : List LogEvent :=
  [⟨"success", "🚨 CRITICAL: Push event fired on service worker!", none⟩,
   ⟨"info", "🔔 Push notification received", none⟩,
   ⟨"info", "🔒 Permission: " ++ permission, none⟩]

/-- The `event.waitUntil` body of `src/unnamed/part_000`'s push listener
(lines 127-202): decode, derive, log the attempt, show the probe
notification (its failure swallowed), then the main notification, then on
failure the fixed fallback, both failures swallowed. -/
def pushBodyV4 (permission : String) (eventData : Option PushEventData)
    (o : RenderOracle) : PushOutcome :=
  let decoded := decodeDataV4 eventData
  match deriveV4 decoded.1 with
  | .error e => ⟨[], [], decoded.2, some e⟩
  | .ok (title, options) =>
    let attemptLog : LogEvent :=
      ⟨"info", "📱 Attempting to show notification",
        some (.objCons "title" title (.objCons "body" options.body .objNil))⟩
    let dShown : List ShowCall :=
      match o.debug with
      | none => [debugCallV4]
      | some _ => []
    let dLogs : List LogEvent :=
      match o.debug with
      | none => [⟨"success", "✅ DEBUG notification shown - push events work!", none⟩]
      | some de => [⟨"error", "❌ DEBUG notification failed", some (showErrorDetail de permission)⟩]
    let primaryCall : ShowCall := ⟨title, options⟩
    match o.primary with
    | none =>
        ⟨[debugCallV4, primaryCall], dShown ++ [primaryCall],
          decoded.2 ++ [attemptLog] ++ dLogs ++
            [⟨"success", "✅ Main notification shown successfully!", none⟩],
          none⟩
    | some e =>
      let failLog : LogEvent :=
        ⟨"error", "❌ Main showNotification failed", some (showErrorDetail e permission)⟩
      match o.fallback with
      | none =>
          ⟨[debugCallV4, primaryCall, fallbackCallV4], dShown ++ [fallbackCallV4],
            decoded.2 ++ [attemptLog] ++ dLogs ++
              [failLog, ⟨"success", "✅ Fallback notification shown", none⟩],
            none⟩
      | some fe =>
          ⟨[debugCallV4, primaryCall, fallbackCallV4], dShown,
            decoded.2 ++ [attemptLog] ++ dLogs ++
              [failLog, ⟨"error", "❌ Even fallback notification failed", some (.str fe.message)⟩],
            none⟩

/-- Full run of `src/unnamed/part_000`'s push listener. -/
def pushHandlerV4 (permission : String) (eventData : Option PushEventData)
    (o : RenderOracle) : PushOutcome :=
  let r := pushBodyV4 permission eventData o
  ⟨r.attempts, r.shown, pushPreLogsV4 permission ++ r.logs, r.escaped⟩

/-! ## Cache lifecycle: install and activate -/

/-- Version-tagged cache name of `src/public/sw.js`. -/
def CACHE_NAME_V3 : String := "medication-tracker-v3"

/-- Version-tagged cache name of `src/unnamed/part_000`. -/
def CACHE_NAME_V4 : String := "medication-tracker-v4"

/-- The fixed precache URL list, identical in both sources. -/
def urlsToCache : List String :=
  ["/", "/manifest.json", "/navikinder-logo-256.png"]

/-- The promise chain `caches.open(CACHE_NAME).then(cache =>
cache.addAll(urlsToCache))` before its `catch`: `openResult` is the host's
outcome for `caches.open`, `addAll` the host's outcome for `cache.addAll`
on a given URL list. -/
def installPromise (openResult : Except JSError Unit)
    (addAll : List String → Except JSError Unit) : Except JSError Unit :=
  openResult.bind (fun _ => addAll urlsToCache)

/-- The install handler of both sources (sw.js lines 32-41, part_000 lines
48-57): the precache chain with its `catch` that logs
`Cache installation failed:` to the console and resolves.  Returns the
settlement of the promise handed to `event.waitUntil` and the console
errors written. -/
def installHandler (openResult : Except JSError Unit)
    (addAll : List String → Except JSError Unit) :
    Except JSError Unit × List String :=
  match installPromise openResult addAll with
  | .ok _ => (.ok (), [])
  | .error e => (.ok (), ["Cache installation failed: " ++ e.message])

/-- Host cache store after `caches.delete(name)`: every bucket with that
name is gone. -/
def cacheDelete (store : List String) (name : String) : List String :=
  store.filter (fun n => n != name)

/-- The names the activate handler passes to `caches.delete` (sw.js lines
49-57, part_000 lines 65-73): every existing name different from the
current cache name. -/
def activateDeleted (current : String) (names : List String) : List String :=
  names.filter (fun n => n != current)

/-- The cache store once the activate handler's cleanup completes: the
store after all the deletions it issued. -/
def cachesAfterActivate (current : String) (store : List String) : List String :=
  (activateDeleted current store).foldl cacheDelete store

/-! ## Network interception -/

/-- The fetch handler of both sources (sw.js lines 77-95, part_000 lines
94-112).  `cacheResult` is the host's outcome for `caches.match` on the
intercepted request (`some r` a cached response, `none` a miss); `net i` is
the host's outcome for the i-th `fetch` call this run makes.  Returns the
response handed to `event.respondWith`, the number of network fetches
issued, and the console errors written.  A network failure after a cache
miss is rethrown into the outer catch, which issues a second direct fetch. -/
def fetchHandler (cacheResult : Except JSError (Option String))
    (net : Nat → Except JSError String) :
    Except JSError String × Nat × List String :=
  match cacheResult with
  | .ok (some r) => (.ok r, 0, [])
  | .ok none =>
    match net 0 with
    | .ok r => (.ok r, 1, [])
    | .error e =>
        (net 1, 2,
         ["Network fetch failed: " ++ e.message, "Cache lookup failed: " ++ e.message])
  | .error e => (net 0, 1, ["Cache lookup failed: " ++ e.message])

/-! ## Client log relay -/

/-- A connected application client as the relay sees it: whether this
worker controls it and whether `postMessage` to it succeeds. -/
structure LogClient where
  id : Nat
  controlled : Bool
  postOk : Bool
  deriving Repr, BEq, DecidableEq

/-- The structured message posted to a client, without the host clock
timestamp. -/
structure SWLogMessage where
  type : String
  logType : String
  message : String
  data : Option JSVal
  deriving Repr, BEq, DecidableEq

/-- `sendLogToApp` of `src/public/sw.js` (lines 98-114): a synchronous
function that fires `clients.matchAll()` — without `includeUncontrolled`,
so only controlled clients are enumerated — and posts to each in a plain
`forEach` with no per-client catch, so the first throwing `postMessage`
aborts the loop.  `cs` is every connected client; `matchAllOk` is the
host's outcome for `matchAll`.  Returns the deliveries that happened; a
failure anywhere surfaces only as an unhandled promise rejection, never to
the caller. -/
def sendLogV3 (logType message : String) (data : Option JSVal)
    (cs : List LogClient) (matchAllOk : Bool) : List (LogClient × SWLogMessage) :=
  if matchAllOk then
    ((cs.filter (fun c => c.controlled)).takeWhile (fun c => c.postOk)).map
      (fun c => (c, ⟨"SW_LOG", logType, message, data⟩))
  else []

/-- `sendLogToApp` of `src/unnamed/part_000` (lines 7-34): awaits
`clients.matchAll({ includeUncontrolled: true })`, posts to every client
inside a per-client try/catch that writes a console error and moves on, and
wraps the whole body in a catch, so its promise always resolves.  Returns
the deliveries, the console errors, and the caller-visible settlement. -/
def sendLogV4 (logType message : String) (data : Option JSVal)
    (cs : List LogClient) (matchAllOk : Bool) :
    List (LogClient × SWLogMessage) × List String × Except JSError Unit :=
  if matchAllOk then
    ((cs.filter (fun c => c.postOk)).map
        (fun c => (c, ⟨"SW_LOG", logType, message, data⟩)),
     (cs.enum.filter (fun p => !p.2.postOk)).map
        (fun p => "[SW] Failed to send to client " ++ toString (p.1 + 1)),
     .ok ())
  else ([], ["[SW] Failed to send log to app"], .ok ())

/-! ## Notification click -/

/-- An open window-type client: only its URL matters to the handler. -/
structure WindowClient where
  url : String
  deriving Repr, BEq, DecidableEq

/-- What the click handler ends up doing. -/
inductive ClickOutcome where
  | focus (url : String)
  | openWindow (path : String)
  deriving Repr, BEq, DecidableEq

/-- Substring test on char lists, the semantics of JavaScript
`String.prototype.includes`. -/
def charListIncludes (needle : List Char) : List Char → Bool
  | [] => needle.isEmpty
  | c :: rest => needle.isPrefixOf (c :: rest) || charListIncludes needle rest

/-- JavaScript `s.includes(sub)`. -/
def jsIncludes (s sub : String) : Bool :=
  charListIncludes sub.toList s.toList

/-- JavaScript `s.startsWith(p)`; a URL is on an origin exactly when it
starts with that origin string. -/
def strStartsWith (s p : String) : Bool :=
  p.toList.isPrefixOf s.toList

/-- The notification click handler of both sources (sw.js lines 182-201,
part_000 lines 204-223): walk the window client list in order, focus the
first whose URL *contains* the worker's origin as a substring, otherwise
open `/overview`. -/
def clickHandler (origin : String) (clientList : List WindowClient) : ClickOutcome :=
  match clientList.find? (fun c => jsIncludes c.url origin) with
  | some c => .focus c.url
  | none => .openWindow "/overview"

/-! ## Concrete fixtures -/

/-- A concrete well-formed structured payload with truthy `title`, `body`
and `data` fields. -/
def samplePayload : JSVal :=
  JSVal.ofFields
    [("title", .str "Dose due"), ("body", .str "Give 5ml"),
     ("data", JSVal.ofFields [("doseId", .num 7)])]

/-- A concrete push event carrying `samplePayload` as JSON. -/
def sampleEventData : PushEventData := ⟨.ok samplePayload, .ok "ignored"⟩

/-- An oracle under which every `showNotification` call succeeds. -/
def quietOracle : RenderOracle := ⟨none, none, none⟩

/-! ## Helper lemmas -/

/-- Membership in a cache store after a sequence of deletions. -/
lemma mem_foldl_cacheDelete (ds : List String) (s : List String) (n : String) :
    n ∈ ds.foldl cacheDelete s ↔ n ∈ s ∧ n ∉ ds := by
  induction ds generalizing s with
  | nil => simp
  | cons d ds ih =>
      simp only [List.foldl_cons, ih, cacheDelete, List.mem_filter, bne_iff_ne, List.mem_cons]
      tauto

/-- The two sources' payload decode tiers are the same function. -/
lemma decodeDataV4_eq (ed : Option PushEventData) : decodeDataV4 ed = decodeDataV3 ed := by
  cases ed with
  | none => rfl
  | some pd =>
      obtain ⟨j, t⟩ := pd
      cases j <;> cases t <;> rfl

/-- The two sources' field derivations are the same function. -/
lemma deriveV4_eq (d : JSVal) : deriveV4 d = deriveV3 d := rfl

/-- Field derivation on the empty object produces both defaults. -/
lemma deriveV3_objNil :
    deriveV3 .objNil =
      .ok (.str defaultTitle,
        ⟨.str defaultBody, some "/navikinder-logo-256.png", some "/navikinder-logo-256.png",
          some .objNil, some true⟩) := rfl

/-! ## Claim theorems -/

/-- C2.  After the activate handler's cleanup, every cache bucket whose
name differs from the current version-tagged cache name has been deleted,
the current bucket has not been deleted, and the only name that can remain
in the store is the current one. -/
theorem activate_prunes_stale_caches (current : String) (store : List String) (n : String) :
    (n ∈ activateDeleted current store ↔ n ∈ store ∧ n ≠ current) ∧
    current ∉ activateDeleted current store ∧
    (n ∈ cachesAfterActivate current store ↔ n ∈ store ∧ n = current) := by
  have hdel : ∀ m : String, m ∈ activateDeleted current store ↔ m ∈ store ∧ m ≠ current := by
    intro m
    simp [activateDeleted, List.mem_filter, bne_iff_ne]
  refine ⟨hdel n, ?_, ?_⟩
  · simp [hdel current]
  · rw [cachesAfterActivate, mem_foldl_cacheDelete, hdel n]
    constructor
    · rintro ⟨hs, hnd⟩
      exact ⟨hs, by by_contra hne; exact hnd ⟨hs, hne⟩⟩
    · rintro ⟨hs, rfl⟩
      exact ⟨hs, fun h => h.2 rfl⟩

/-- Witness for C2 at the `part_000` cache name: the stale `v2` bucket is
deleted and the current `v4` bucket remains. -/
theorem activate_prunes_stale_caches_witness :
    ("medication-tracker-v2" ∈
        activateDeleted CACHE_NAME_V4 ["medication-tracker-v2", CACHE_NAME_V4]) ∧
    (CACHE_NAME_V4 ∈
        cachesAfterActivate CACHE_NAME_V4 ["medication-tracker-v2", CACHE_NAME_V4]) :=
  ⟨(activate_prunes_stale_caches CACHE_NAME_V4 ["medication-tracker-v2", CACHE_NAME_V4]
      "medication-tracker-v2").1.mpr (by decide),
   (activate_prunes_stale_caches CACHE_NAME_V4 ["medication-tracker-v2", CACHE_NAME_V4]
      CACHE_NAME_V4).2.2.mpr (by decide)⟩

/-- C6.  A push event with no payload renders a notification with the
default title and default body in both sources (in `part_000` the derived
notification is the second `showNotification` call, after the probe), and
a warning log noting the absence of data is emitted. -/
theorem push_no_payload_defaults (permission : String) (o : RenderOracle) :
    ((pushHandlerV3 permission none o).attempts.head? =
      some ⟨.str defaultTitle,
        ⟨.str defaultBody, some "/navikinder-logo-256.png", some "/navikinder-logo-256.png",
          some .objNil, some true⟩⟩) ∧
    (⟨"warning", "⚠️ No data in push event", none⟩ : LogEvent) ∈
      (pushHandlerV3 permission none o).logs ∧
    ((pushHandlerV4 permission none o).attempts[1]? =
      some ⟨.str defaultTitle,
        ⟨.str defaultBody, some "/navikinder-logo-256.png", some "/navikinder-logo-256.png",
          some .objNil, some true⟩⟩) ∧
    (⟨"warning", "⚠️ No data in push event", none⟩ : LogEvent) ∈
      (pushHandlerV4 permission none o).logs := by
  obtain ⟨od, op, of⟩ := o
  cases od <;> cases op <;> cases of <;>
    simp [pushHandlerV3, pushHandlerV4, pushBodyV3, pushBodyV4, decodeDataV3, decodeDataV4,
      deriveV3_objNil, deriveV4_eq, pushPreLogsV3, pushPreLogsV4, defaultTitle, defaultBody,
      fallbackCallV3, fallbackCallV4, debugCallV4]

/-- C7.  Cache-first interception: a cached response is returned with the
network never contacted; on a cache miss the request goes to the network
and a network outcome is what is returned; a failing cache lookup falls
back to a direct network fetch. -/
theorem fetch_cache_first_semantics (cacheResult : Except JSError (Option String))
    (net : Nat → Except JSError String) :
    (∀ r, cacheResult = .ok (some r) →
        (fetchHandler cacheResult net).1 = .ok r ∧ (fetchHandler cacheResult net).2.1 = 0) ∧
    (cacheResult = .ok none →
        1 ≤ (fetchHandler cacheResult net).2.1 ∧
        ∃ i, i < (fetchHandler cacheResult net).2.1 ∧
          (fetchHandler cacheResult net).1 = net i) ∧
    (∀ e, cacheResult = .error e →
        (fetchHandler cacheResult net).2.1 = 1 ∧ (fetchHandler cacheResult net).1 = net 0) := by
  refine ⟨?_, ?_, ?_⟩
  · rintro r rfl
    simp [fetchHandler]
  · rintro rfl
    cases h : net 0 with
    | ok v =>
        refine ⟨by simp [fetchHandler, h], 0, by simp [fetchHandler, h], ?_⟩
        simp [fetchHandler, h]
    | error e =>
        refine ⟨by simp [fetchHandler, h], 1, by simp [fetchHandler, h], ?_⟩
        simp [fetchHandler, h]
  · rintro e rfl
    simp [fetchHandler]

/-- Witness for C7: a cached response is served with zero network calls. -/
theorem fetch_cache_first_semantics_witness :
    (fetchHandler (.ok (some "cached-shell")) (fun _ => .error ⟨"TypeError", "offline"⟩)).1 =
        .ok "cached-shell" ∧
    (fetchHandler (.ok (some "cached-shell")) (fun _ => .error ⟨"TypeError", "offline"⟩)).2.1 = 0 :=
  (fetch_cache_first_semantics (.ok (some "cached-shell"))
      (fun _ => .error ⟨"TypeError", "offline"⟩)).1 "cached-shell" rfl

/-- C8.  The install handler resolves the promise handed to
`event.waitUntil` whatever the precache chain does, and a failing chain is
logged to the console: the precache failure never becomes an installation
failure. -/
theorem install_precache_failure_swallowed (openResult : Except JSError Unit)
    (addAll : List String → Except JSError Unit) :
    (installHandler openResult addAll).1 = .ok () ∧
    (∀ e, installPromise openResult addAll = .error e →
        ("Cache installation failed: " ++ e.message) ∈ (installHandler openResult addAll).2) := by
  cases h : installPromise openResult addAll with
  | ok v => simp [installHandler, h]
  | error e => simp [installHandler, h]

/-- Witness for C8: `caches.open` rejecting still installs, with the
failure logged. -/
theorem install_precache_failure_swallowed_witness :
    (installHandler (.error ⟨"SecurityError", "storage denied"⟩) (fun _ => .ok ())).1 = .ok () ∧
    ("Cache installation failed: storage denied" ∈
      (installHandler (.error ⟨"SecurityError", "storage denied"⟩) (fun _ => .ok ())).2) :=
  ⟨(install_precache_failure_swallowed (.error ⟨"SecurityError", "storage denied"⟩)
      (fun _ => .ok ())).1,
   (install_precache_failure_swallowed (.error ⟨"SecurityError", "storage denied"⟩)
      (fun _ => .ok ())).2 ⟨"SecurityError", "storage denied"⟩ rfl⟩

/-- C9.  The payload-decode and field-derivation steps of the two sources
are extensionally equal: on every push event input they produce the same
decoded data, the same log events, and the same derived title and options
bundle. -/
theorem decode_derive_versions_agree (ed : Option PushEventData) :
    decodeDataV4 ed = decodeDataV3 ed ∧
    deriveV4 (decodeDataV4 ed).1 = deriveV3 (decodeDataV3 ed).1 := by
  cases ed with
  | none => exact ⟨rfl, rfl⟩
  | some pd =>
      obtain ⟨j, t⟩ := pd
      cases j <;> cases t <;> exact ⟨rfl, rfl⟩

/-- C10.  The click handler matches windows by substring containment of
the worker's origin, not by origin equality: a window whose URL merely
mentions the origin in its query string is focused and no new window is
opened. -/
theorem click_matches_by_substring :
    strStartsWith "https://evil.example/?url=https://navikinder.com"
        "https://navikinder.com" = false ∧
    jsIncludes "https://evil.example/?url=https://navikinder.com" "https://navikinder.com" = true ∧
    clickHandler "https://navikinder.com"
        [⟨"https://evil.example/?url=https://navikinder.com"⟩] =
      .focus "https://evil.example/?url=https://navikinder.com" := by
  decide

/-- Property access on an object value reads its field spine. -/
lemma getField_objCons (key field : String) (v rest : JSVal) :
    getField (.objCons key v rest) field =
      .ok ((lookupField (.objCons key v rest) field).getD .undefined) := rfl

/-- C4 counterexample.  The `sw.js` relay at a concrete client set: a
failing `postMessage` to the first client prevents delivery to the second,
working client, and an uncontrolled working client is never enumerated at
all — both contradicting the claim. -/
theorem log_relay_v3_aborts_on_client_failure :
    sendLogV3 "info" "hello" none [⟨0, true, false⟩, ⟨1, true, true⟩] true = [] ∧
    (⟨1, true, true⟩ : LogClient).postOk = true ∧
    sendLogV3 "info" "hello" none [⟨2, false, true⟩] true = [] := by decide

/-- C4 as amended.  The `part_000` relay delivers the structured log
message to every client whose `postMessage` works — uncontrolled clients
included, a failure at one client never blocking the others — and its
promise always resolves for its caller. -/
theorem log_relay_isolated_delivery_v4 (logType message : String) (data : Option JSVal)
    (cs : List LogClient) (matchAllOk : Bool) :
    (∀ c ∈ cs, c.postOk = true →
        (c, (⟨"SW_LOG", logType, message, data⟩ : SWLogMessage)) ∈
          (sendLogV4 logType message data cs true).1) ∧
    (sendLogV4 logType message data cs matchAllOk).2.2 = .ok () := by
  constructor
  · intro c hc hpost
    simp only [sendLogV4, if_true, List.mem_map, List.mem_filter]
    exact ⟨c, ⟨hc, hpost⟩, rfl⟩
  · cases matchAllOk <;> simp [sendLogV4]

/-- Witness for C4: an uncontrolled working client receives the message
even though the client before it fails. -/
theorem log_relay_isolated_delivery_v4_witness :
    ((⟨1, false, true⟩, (⟨"SW_LOG", "error", "boom", none⟩ : SWLogMessage)) ∈
        (sendLogV4 "error" "boom" none [⟨0, true, false⟩, ⟨1, false, true⟩] true).1) ∧
    (sendLogV4 "error" "boom" none [⟨0, true, false⟩, ⟨1, false, true⟩] true).2.2 = .ok () :=
  ⟨(log_relay_isolated_delivery_v4 "error" "boom" none
      [⟨0, true, false⟩, ⟨1, false, true⟩] true).1 ⟨1, false, true⟩
      (List.mem_cons_of_mem _ (List.mem_cons_self _ _)) rfl,
   (log_relay_isolated_delivery_v4 "error" "boom" none
      [⟨0, true, false⟩, ⟨1, false, true⟩] true).2⟩

/-- Field derivation on the wrapped text payload `{ body: t }`. -/
lemma deriveV3_textWrap (t : String) :
    deriveV3 (.objCons "body" (.str t) .objNil) =
      .ok (.str defaultTitle,
        ⟨jsOr (.str t) (.str defaultBody), some "/navikinder-logo-256.png",
          some "/navikinder-logo-256.png", some .objNil, some true⟩) := rfl

/-- A non-empty string is truthy. -/
lemma truthy_str_of_ne (t : String) (h : t ≠ "") : truthy (.str t) = true := by
  simp only [truthy, bne_iff_ne, ne_eq]
  exact h

/-- C5 counterexample.  The push payload that is the valid plain text `""`
(and not valid JSON): the decode does yield `{ body: "" }`, but the
rendered notification's body is the default, not that text. -/
theorem push_text_fallback_empty_text :
    (decodeDataV3 (some ⟨.error ⟨"SyntaxError", "Unexpected end of JSON input"⟩, .ok ""⟩)).1 =
      .objCons "body" (.str "") .objNil ∧
    ((pushHandlerV3 "granted"
        (some ⟨.error ⟨"SyntaxError", "Unexpected end of JSON input"⟩, .ok ""⟩)
        ⟨none, none, none⟩).attempts.map (fun c => c.options.body)) =
      [.str defaultBody] ∧
    (JSVal.str defaultBody) ≠ .str "" := by decide

/-- C5 as amended.  A push payload that is valid, non-empty plain text and
not valid structured data decodes to `{ body: <text> }`, the rendered
notification's body equals that text (with the default title), and the
warning log naming the text fallback is emitted — in both sources. -/
theorem push_text_fallback_body (pd : PushEventData) (e : JSError) (t : String)
    (permission : String) (o : RenderOracle)
    (hj : pd.json = .error e) (htx : pd.text = .ok t) (ht0 : t ≠ "") :
    (decodeDataV3 (some pd)).1 = .objCons "body" (.str t) .objNil ∧
    (decodeDataV4 (some pd)).1 = .objCons "body" (.str t) .objNil ∧
    ((pushHandlerV3 permission (some pd) o).attempts.head? =
      some ⟨.str defaultTitle,
        ⟨.str t, some "/navikinder-logo-256.png", some "/navikinder-logo-256.png",
          some .objNil, some true⟩⟩) ∧
    ((pushHandlerV4 permission (some pd) o).attempts[1]? =
      some ⟨.str defaultTitle,
        ⟨.str t, some "/navikinder-logo-256.png", some "/navikinder-logo-256.png",
          some .objNil, some true⟩⟩) ∧
    (⟨"warning", "⚠️ Using text fallback", none⟩ : LogEvent) ∈
      (pushHandlerV3 permission (some pd) o).logs ∧
    (⟨"warning", "⚠️ Using text fallback", none⟩ : LogEvent) ∈
      (pushHandlerV4 permission (some pd) o).logs := by
  obtain ⟨jd, td⟩ := pd
  have hj' : jd = .error e := hj
  have htx' : td = .ok t := htx
  subst hj'
  subst htx'
  have htt : truthy (.str t) = true := truthy_str_of_ne t ht0
  have hder : deriveV3 (.objCons "body" (.str t) .objNil) =
      .ok (.str defaultTitle,
        ⟨.str t, some "/navikinder-logo-256.png", some "/navikinder-logo-256.png",
          some .objNil, some true⟩) := by
    rw [deriveV3_textWrap]
    simp [jsOr, htt]
  obtain ⟨od, op, of⟩ := o
  cases od <;> cases op <;> cases of <;>
    simp [pushHandlerV3, pushHandlerV4, pushBodyV3, pushBodyV4, decodeDataV3, decodeDataV4,
      hder, deriveV4_eq, pushPreLogsV3, pushPreLogsV4]

/-- Witness for C5 at a concrete non-JSON text payload. -/
theorem push_text_fallback_body_witness :
    (decodeDataV3 (some ⟨.error ⟨"SyntaxError", "Unexpected token C"⟩,
        .ok "Clinic closed today"⟩)).1 = .objCons "body" (.str "Clinic closed today") .objNil ∧
    (decodeDataV4 (some ⟨.error ⟨"SyntaxError", "Unexpected token C"⟩,
        .ok "Clinic closed today"⟩)).1 = .objCons "body" (.str "Clinic closed today") .objNil ∧
    ((pushHandlerV3 "granted" (some ⟨.error ⟨"SyntaxError", "Unexpected token C"⟩,
        .ok "Clinic closed today"⟩) ⟨none, none, none⟩).attempts.head? =
      some ⟨.str defaultTitle,
        ⟨.str "Clinic closed today", some "/navikinder-logo-256.png",
          some "/navikinder-logo-256.png", some .objNil, some true⟩⟩) ∧
    ((pushHandlerV4 "granted" (some ⟨.error ⟨"SyntaxError", "Unexpected token C"⟩,
        .ok "Clinic closed today"⟩) ⟨none, none, none⟩).attempts[1]? =
      some ⟨.str defaultTitle,
        ⟨.str "Clinic closed today", some "/navikinder-logo-256.png",
          some "/navikinder-logo-256.png", some .objNil, some true⟩⟩) ∧
    (⟨"warning", "⚠️ Using text fallback", none⟩ : LogEvent) ∈
      (pushHandlerV3 "granted" (some ⟨.error ⟨"SyntaxError", "Unexpected token C"⟩,
        .ok "Clinic closed today"⟩) ⟨none, none, none⟩).logs ∧
    (⟨"warning", "⚠️ Using text fallback", none⟩ : LogEvent) ∈
      (pushHandlerV4 "granted" (some ⟨.error ⟨"SyntaxError", "Unexpected token C"⟩,
        .ok "Clinic closed today"⟩) ⟨none, none, none⟩).logs :=
  push_text_fallback_body ⟨.error ⟨"SyntaxError", "Unexpected token C"⟩,
    .ok "Clinic closed today"⟩ ⟨"SyntaxError", "Unexpected token C"⟩ "Clinic closed today"
    "granted" ⟨none, none, none⟩ rfl rfl (by decide)

/-- Bind on a successful `Except` computation reduces. -/
lemma exceptBind_ok {α β : Type} (a : α) (f : α → Except JSError β) :
    (Except.ok a >>= f : Except JSError β) = f a := rfl

/-- C1 counterexample.  A well-formed structured payload containing both a
`title` field (the empty string) and a `body` field: the rendered
notification's title is the default, not the payload's title, because the
derivation uses JavaScript truthiness (`data.title || default`). -/
theorem push_structured_empty_title_counterexample :
    lookupField (JSVal.ofFields [("title", .str ""), ("body", .str "Take 5ml now")]) "title" =
      some (.str "") ∧
    ((pushHandlerV3 "granted"
        (some ⟨.ok (JSVal.ofFields [("title", .str ""), ("body", .str "Take 5ml now")]),
          .ok "raw"⟩)
        ⟨none, none, none⟩).attempts.map ShowCall.title) = [.str defaultTitle] ∧
    (JSVal.str defaultTitle) ≠ .str "" := by decide

/-- C1 as amended.  For a structured payload whose `title` and `body`
fields are non-empty (truthy) strings, the main notification of both
sources uses exactly those values; its options bundle carries the icon and
badge references and `requireInteraction: true`, and carries the payload's
`data` field when that field is truthy (an empty object when the field is
absent).  When the primary render succeeds the call is among the
notifications actually shown. -/
theorem push_structured_truthy_fields_exact
    (p : JSVal) (t b : String) (pd : PushEventData)
    (permission : String) (o : RenderOracle)
    (hjson : pd.json = .ok p)
    (ht : lookupField p "title" = some (.str t)) (ht0 : t ≠ "")
    (hb : lookupField p "body" = some (.str b)) (hb0 : b ≠ "") :
    ∃ opts : NotifOptions,
      (pushHandlerV3 permission (some pd) o).attempts.head? = some ⟨.str t, opts⟩ ∧
      (pushHandlerV4 permission (some pd) o).attempts[1]? = some ⟨.str t, opts⟩ ∧
      opts.body = .str b ∧
      opts.icon = some "/navikinder-logo-256.png" ∧
      opts.badge = some "/navikinder-logo-256.png" ∧
      opts.requireInteraction = some true ∧
      (lookupField p "data" = none → opts.data = some .objNil) ∧
      (∀ dv, lookupField p "data" = some dv → truthy dv = true → opts.data = some dv) ∧
      (o.primary = none →
        (⟨.str t, opts⟩ : ShowCall) ∈ (pushHandlerV3 permission (some pd) o).shown ∧
        (⟨.str t, opts⟩ : ShowCall) ∈ (pushHandlerV4 permission (some pd) o).shown) := by
  cases p with
  | null => simp [lookupField] at ht
  | undefined => simp [lookupField] at ht
  | bool x => simp [lookupField] at ht
  | num x => simp [lookupField] at ht
  | str x => simp [lookupField] at ht
  | objNil => simp [lookupField] at ht
  | objCons k v rest =>
    obtain ⟨jd, td⟩ := pd
    have hj' : jd = .ok (.objCons k v rest) := hjson
    subst hj'
    have htt : truthy (.str t) = true := truthy_str_of_ne t ht0
    have hbt : truthy (.str b) = true := truthy_str_of_ne b hb0
    have hder : deriveV3 (.objCons k v rest) =
        .ok (.str t,
          ⟨.str b, some "/navikinder-logo-256.png", some "/navikinder-logo-256.png",
            some (jsOr ((lookupField (.objCons k v rest) "data").getD .undefined) .objNil),
            some true⟩) := by
      simp only [deriveV3, getField_objCons, ht, hb, Option.getD_some, exceptBind_ok]
      simp only [jsOr, htt, hbt, if_true]
      rfl
    refine ⟨⟨.str b, some "/navikinder-logo-256.png", some "/navikinder-logo-256.png",
        some (jsOr ((lookupField (.objCons k v rest) "data").getD .undefined) .objNil),
        some true⟩, ?_, ?_, rfl, rfl, rfl, rfl, ?_, ?_, ?_⟩
    · obtain ⟨od, op, of⟩ := o
      cases op <;> cases of <;>
        simp [pushHandlerV3, pushBodyV3, decodeDataV3, hder]
    · obtain ⟨od, op, of⟩ := o
      cases od <;> cases op <;> cases of <;>
        simp [pushHandlerV4, pushBodyV4, decodeDataV4, deriveV4_eq, hder]
    · intro h
      rw [h]
      simp [jsOr, truthy]
    · intro dv hdv hdvt
      rw [hdv]
      simp [jsOr, hdvt]
    · intro hop
      obtain ⟨od, op, of⟩ := o
      have hop' : op = none := hop
      subst hop'
      constructor
      · cases of <;> simp [pushHandlerV3, pushBodyV3, decodeDataV3, hder]
      · cases od <;> cases of <;>
          simp [pushHandlerV4, pushBodyV4, decodeDataV4, deriveV4_eq, hder]

/-- Witness for C1 at a concrete payload with truthy fields. -/
theorem push_structured_truthy_fields_exact_witness :
    ∃ opts : NotifOptions,
      (pushHandlerV3 "granted" (some sampleEventData) quietOracle).attempts.head? =
        some ⟨.str "Dose due", opts⟩ ∧
      (pushHandlerV4 "granted" (some sampleEventData) quietOracle).attempts[1]? =
        some ⟨.str "Dose due", opts⟩ ∧
      opts.body = .str "Give 5ml" ∧
      opts.icon = some "/navikinder-logo-256.png" ∧
      opts.badge = some "/navikinder-logo-256.png" ∧
      opts.requireInteraction = some true ∧
      (lookupField samplePayload "data" = none → opts.data = some .objNil) ∧
      (∀ dv, lookupField samplePayload "data" = some dv → truthy dv = true →
        opts.data = some dv) ∧
      (quietOracle.primary = none →
        (⟨.str "Dose due", opts⟩ : ShowCall) ∈
          (pushHandlerV3 "granted" (some sampleEventData) quietOracle).shown ∧
        (⟨.str "Dose due", opts⟩ : ShowCall) ∈
          (pushHandlerV4 "granted" (some sampleEventData) quietOracle).shown) :=
  push_structured_truthy_fields_exact samplePayload "Dose due" "Give 5ml" sampleEventData
    "granted" quietOracle rfl (by decide) (by decide) (by decide) (by decide)

/-- Bind on a failed `Except` computation reduces. -/
lemma exceptBind_error {α β : Type} (e : JSError) (f : α → Except JSError β) :
    (Except.error e >>= f : Except JSError β) = .error e := rfl

/-- Pure on `Except` is `ok`. -/
lemma exceptPure {α : Type} (a : α) : (pure a : Except JSError α) = .ok a := rfl

/-- Whenever field derivation succeeds, the options bundle carries the
fixed icon, badge and `requireInteraction` values. -/
lemma deriveV3_fixed (d : JSVal) (t : JSVal) (o' : NotifOptions)
    (h : deriveV3 d = .ok (t, o')) :
    o'.icon = some "/navikinder-logo-256.png" ∧
    o'.badge = some "/navikinder-logo-256.png" ∧
    o'.requireInteraction = some true := by
  cases d <;>
    simp only [deriveV3, getField, exceptBind_ok, exceptBind_error, exceptPure,
      Except.ok.injEq, Prod.mk.injEq] at h
  all_goals obtain ⟨h1, h2⟩ := h
  all_goals subst h2
  all_goals exact ⟨rfl, rfl, rfl⟩

/-- C3 counterexample.  In `src/unnamed/part_000`, with the main
`showNotification` failing, the fallback render does not reuse the primary
attempt's icon: the main attempt's icon is the app logo while the fallback
uses the placeholder URL. -/
theorem push_fallback_icon_differs_v4 :
    ((pushHandlerV4 "granted" none
        ⟨none, some ⟨"NotAllowedError", "permission denied"⟩, none⟩).attempts.map
      (fun c => c.options.icon)) =
      [some "https://via.placeholder.com/192x192.png", some "/navikinder-logo-256.png",
        some "https://via.placeholder.com/192x192.png"] ∧
    (some "https://via.placeholder.com/192x192.png" : Option String) ≠
      some "/navikinder-logo-256.png" := by decide

/-- C3 as amended.  When the primary (main) `showNotification` call fails
and field derivation succeeded, each source attempts exactly one fallback
render with the fixed title and fixed body; in `sw.js` the fallback reuses
the primary attempt's icon, while in `part_000` it uses the fixed
placeholder icon instead.  If the fallback also fails, both error-level
log events (with distinct messages) have been emitted, and the
`waitUntil` promise still resolves: no exception escapes the handler. -/
theorem push_render_fallback_chain (permission : String) (ed : Option PushEventData)
    (o : RenderOracle) (e : JSError) (title : JSVal) (options : NotifOptions)
    (hp : o.primary = some e)
    (hd : deriveV3 (decodeDataV3 ed).1 = .ok (title, options)) :
    (pushHandlerV3 permission ed o).attempts = [⟨title, options⟩, fallbackCallV3] ∧
    fallbackCallV3.title = .str defaultTitle ∧
    fallbackCallV3.options.body = .str defaultBody ∧
    options.icon = some "/navikinder-logo-256.png" ∧
    fallbackCallV3.options.icon = some "/navikinder-logo-256.png" ∧
    (pushHandlerV4 permission ed o).attempts =
      [debugCallV4, ⟨title, options⟩, fallbackCallV4] ∧
    fallbackCallV4.title = .str defaultTitle ∧
    fallbackCallV4.options.body = .str defaultBody ∧
    fallbackCallV4.options.icon = some "https://via.placeholder.com/192x192.png" ∧
    (pushHandlerV3 permission ed o).escaped = none ∧
    (pushHandlerV4 permission ed o).escaped = none ∧
    (∀ fe, o.fallback = some fe →
      ((⟨"error", "❌ showNotification failed", some (showErrorDetail e permission)⟩ :
          LogEvent) ∈ (pushHandlerV3 permission ed o).logs ∧
       (⟨"error", "❌ Even fallback notification failed", some (.str fe.message)⟩ :
          LogEvent) ∈ (pushHandlerV3 permission ed o).logs ∧
       ("❌ showNotification failed" : String) ≠ "❌ Even fallback notification failed" ∧
       (⟨"error", "❌ Main showNotification failed", some (showErrorDetail e permission)⟩ :
          LogEvent) ∈ (pushHandlerV4 permission ed o).logs ∧
       (⟨"error", "❌ Even fallback notification failed", some (.str fe.message)⟩ :
          LogEvent) ∈ (pushHandlerV4 permission ed o).logs ∧
       ("❌ Main showNotification failed" : String) ≠
         "❌ Even fallback notification failed")) := by
  obtain ⟨hic, hbadge, hreq⟩ := deriveV3_fixed (decodeDataV3 ed).1 title options hd
  have hd4 : deriveV4 (decodeDataV4 ed).1 = .ok (title, options) := by
    rw [decodeDataV4_eq, deriveV4_eq]
    exact hd
  obtain ⟨od, op, of⟩ := o
  have hp' : op = some e := hp
  subst hp'
  cases of <;> cases od <;>
    simp [pushHandlerV3, pushHandlerV4, pushBodyV3, pushBodyV4, hd, hd4, hic,
      pushPreLogsV3, pushPreLogsV4, fallbackCallV3, fallbackCallV4, debugCallV4,
      defaultTitle, defaultBody]

/-- Witness for C3: no-payload push, primary and fallback renders both
failing. -/
theorem push_render_fallback_chain_witness :
    (pushHandlerV3 "denied" none
        ⟨none, some ⟨"NotAllowedError", "permission denied"⟩,
          some ⟨"TypeError", "bad icon"⟩⟩).attempts =
      [⟨.str defaultTitle,
        ⟨.str defaultBody, some "/navikinder-logo-256.png", some "/navikinder-logo-256.png",
          some .objNil, some true⟩⟩, fallbackCallV3] ∧
    fallbackCallV3.title = .str defaultTitle ∧
    fallbackCallV3.options.body = .str defaultBody ∧
    (⟨.str defaultBody, some "/navikinder-logo-256.png", some "/navikinder-logo-256.png",
        some .objNil, some true⟩ : NotifOptions).icon = some "/navikinder-logo-256.png" ∧
    fallbackCallV3.options.icon = some "/navikinder-logo-256.png" ∧
    (pushHandlerV4 "denied" none
        ⟨none, some ⟨"NotAllowedError", "permission denied"⟩,
          some ⟨"TypeError", "bad icon"⟩⟩).attempts =
      [debugCallV4,
        ⟨.str defaultTitle,
          ⟨.str defaultBody, some "/navikinder-logo-256.png", some "/navikinder-logo-256.png",
            some .objNil, some true⟩⟩, fallbackCallV4] ∧
    fallbackCallV4.title = .str defaultTitle ∧
    fallbackCallV4.options.body = .str defaultBody ∧
    fallbackCallV4.options.icon = some "https://via.placeholder.com/192x192.png" ∧
    (pushHandlerV3 "denied" none
        ⟨none, some ⟨"NotAllowedError", "permission denied"⟩,
          some ⟨"TypeError", "bad icon"⟩⟩).escaped = none ∧
    (pushHandlerV4 "denied" none
        ⟨none, some ⟨"NotAllowedError", "permission denied"⟩,
          some ⟨"TypeError", "bad icon"⟩⟩).escaped = none ∧
    (∀ fe,
      (⟨none, some ⟨"NotAllowedError", "permission denied"⟩,
          some ⟨"TypeError", "bad icon"⟩⟩ : RenderOracle).fallback = some fe →
      ((⟨"error", "❌ showNotification failed",
          some (showErrorDetail ⟨"NotAllowedError", "permission denied"⟩ "denied")⟩ :
            LogEvent) ∈
          (pushHandlerV3 "denied" none
            ⟨none, some ⟨"NotAllowedError", "permission denied"⟩,
              some ⟨"TypeError", "bad icon"⟩⟩).logs ∧
        (⟨"error", "❌ Even fallback notification failed", some (.str fe.message)⟩ :
            LogEvent) ∈
          (pushHandlerV3 "denied" none
            ⟨none, some ⟨"NotAllowedError", "permission denied"⟩,
              some ⟨"TypeError", "bad icon"⟩⟩).logs ∧
        ("❌ showNotification failed" : String) ≠ "❌ Even fallback notification failed" ∧
        (⟨"error", "❌ Main showNotification failed",
          some (showErrorDetail ⟨"NotAllowedError", "permission denied"⟩ "denied")⟩ :
            LogEvent) ∈
          (pushHandlerV4 "denied" none
            ⟨none, some ⟨"NotAllowedError", "permission denied"⟩,
              some ⟨"TypeError", "bad icon"⟩⟩).logs ∧
        (⟨"error", "❌ Even fallback notification failed", some (.str fe.message)⟩ :
            LogEvent) ∈
          (pushHandlerV4 "denied" none
            ⟨none, some ⟨"NotAllowedError", "permission denied"⟩,
              some ⟨"TypeError", "bad icon"⟩⟩).logs ∧
        ("❌ Main showNotification failed" : String) ≠
          "❌ Even fallback notification failed")) :=
  push_render_fallback_chain "denied" none
    ⟨none, some ⟨"NotAllowedError", "permission denied"⟩, some ⟨"TypeError", "bad icon"⟩⟩
    ⟨"NotAllowedError", "permission denied"⟩ (.str defaultTitle)
    ⟨.str defaultBody, some "/navikinder-logo-256.png", some "/navikinder-logo-256.png",
      some .objNil, some true⟩ rfl rfl
